import Mathlib

/-!
Verification of the stash receipt-to-rewards backend (Python sources under
`agents/tools/`).  We shallowly embed the gamification and wallet tools:
`calculate_points_reward`, `award_points_to_user`, `get_user_achievements`
(from `agents/tools/game_tools.py`) and `get_user_balance`, `spend_points`,
`get_redemption_options`, `redeem_reward` (from `agents/tools/wallet_tools.py`).

The document store (Google Cloud Firestore) is an external collaborator; we
model it as an in-memory record: an association list of user documents
(holding the `points` field), an append-only list of point-transaction
documents, and an append-only list of redemption documents.
`update({"points": firestore.Increment(p)})` is modelled as an upsert
increment of the `points` field, matching the account lifecycle the code
assumes (the `else: new_balance = points` branch of `award_points_to_user`
handles the fresh-user case) and the spec's account lifecycle ("implicitly
created on ... first point award").

Environment configuration (`os.getenv` + `int`/`float` parsing) is modelled
as an already-parsed `Config` record; the Python `float` values are modelled
as exact rationals.  The unseeded random draws of `calculate_points_reward`
are passed in explicitly as a `Draws` record; theorems that depend on
`random.randint`'s range guarantee take that range as a hypothesis.
-/

namespace Stash

/-! ## Document store: users, point transactions, redemptions -/

/-- A `point_transactions` document, as written by `award_points_to_user`
(`{"userId", "points", "reason", "timestamp", "type"}`) and `spend_points`.
The server-side timestamp is omitted (opaque, never read by the code). -/
structure Txn where
  userId : String
  points : Int
  reason : String
  ttype : String
deriving DecidableEq

/-- A `redemptions` document, as written by `redeem_reward`. -/
structure RedemptionRec where
  userId : String
  rewardId : String
  rewardName : String
  pointsCost : Int
  status : String
deriving DecidableEq

/-- The document-store state touched by the wallet/game tools: the `users`
collection (documents keyed by user id, holding the `points` field), the
`point_transactions` collection and the `redemptions` collection, both
append-only. -/
structure DB where
  users : List (String × Int)
  txns : List Txn
  redemptions : List RedemptionRec
deriving DecidableEq

/-- The empty document store (fresh state). -/
def emptyDB : DB := ⟨[], [], []⟩

/-- Model of `user_ref.update({"points": firestore.Increment(p)})`: increment the
`points` field of the user document, creating the document with `points = p`
when it does not exist (a missing numeric field counts as `0` for
`Increment`). -/
def incPoints : List (String × Int) → String → Int → List (String × Int)
  | [], uid, p => [(uid, p)]
  | (k, v) :: rest, uid, p =>
      if k = uid then (k, v + p) :: rest else (k, v) :: incPoints rest uid p

/-- Model of `user_ref.get()`: fetch the `points` field of a user document, `none`
when the document does not exist. -/
def lookupPts : List (String × Int) → String → Option Int
  | [], _ => none
  | (k, v) :: rest, uid => if k = uid then some v else lookupPts rest uid

/-- The balance the store reports for a user: the `points` field of the
user's document, `0` when the document is absent
(`user_data.get("points", 0)`). -/
def balanceOf (db : DB) (uid : String) : Int :=
  (lookupPts db.users uid).getD 0

/-- Sum of the `points` values of all logged transactions for one user
(the spec's `sum(points over all transactions for that user)`). -/
def sumFor (uid : String) : List Txn → Int
  | [] => 0
  | t :: ts => (if t.userId = uid then t.points else 0) + sumFor uid ts

/-- The spec quantity `sum(points over all transactions for that user)`. -/
def txnSum (db : DB) (uid : String) : Int :=
  sumFor uid db.txns

/-! ## `award_points_to_user` (game_tools.py, lines 111-160) -/

/-- The success dictionary returned by `award_points_to_user`
(`points_awarded`, `new_balance`; the echoed `reason`/`user_id` are the
arguments themselves). -/
structure AwardRes where
  pointsAwarded : Int
  newBalance : Int
deriving DecidableEq

/-- Function `award_points_to_user(user_id, points, reason)`: increments the user's
`points` via `firestore.Increment`, reads the balance back (`points` when the
document is still absent), and appends one `earned` transaction. -/
def award_points_to_user (db : DB) (uid : String) (points : Int)
    (reason : String) : DB × AwardRes :=
  let users' := incPoints db.users uid points
  let newBalance :=
    match lookupPts users' uid with
    | some b => b
    | none => points
  let txn : Txn := ⟨uid, points, reason, "earned"⟩
  (⟨users', db.txns ++ [txn], db.redemptions⟩, ⟨points, newBalance⟩)

/-! ## `spend_points` (wallet_tools.py, lines 110-172) -/

/-- The three return paths of `spend_points`: the `"User not found"` error
(with `new_balance = 0`), the insufficient-balance error (whose message
interpolates the current and required amounts), and success. -/
inductive SpendRes where
  | userNotFound
  | insufficient (current required : Int)
  | ok (pointsSpent newBalance : Int)
deriving DecidableEq

/-- Function `spend_points(user_id, points, reason)`: fails when the user document
does not exist; fails with the insufficient-balance error when
`current_balance < points`; otherwise decrements the balance and appends one
`spent` transaction holding `-points`. -/
def spend_points (db : DB) (uid : String) (points : Int)
    (reason : String) : DB × SpendRes :=
  match lookupPts db.users uid with
  | none => (db, .userNotFound)
  | some bal =>
      if bal < points then
        (db, .insufficient bal points)
      else
        let users' := incPoints db.users uid (-points)
        (⟨users', db.txns ++ [⟨uid, -points, reason, "spent"⟩],
          db.redemptions⟩,
         .ok points (bal - points))

/-! ## `get_redemption_options` and `redeem_reward`
(wallet_tools.py, lines 176-230 and 234-302) -/

/-- One entry of the static reward catalog. -/
structure Reward where
  id : String
  name : String
  description : String
  cost : Int
  category : String
  available : Bool
deriving DecidableEq

/-- The static catalog returned by `get_redemption_options` (which always
succeeds: its `except` branch is unreachable). -/
def redemption_options : List Reward :=
  [⟨"gift_card_10", "$10 Gift Card",
    "Redeem for a $10 gift card to popular retailers", 1000, "gift_cards",
    true⟩,
   ⟨"gift_card_25", "$25 Gift Card",
    "Redeem for a $25 gift card to popular retailers", 2500, "gift_cards",
    true⟩,
   ⟨"discount_5", "5% Cashback Boost",
    "Get 5% extra cashback on your next 3 receipts", 500, "boosts", true⟩,
   ⟨"premium_insights", "Premium Analytics Report",
    "Get detailed spending insights and budgeting advice", 300, "services",
    true⟩]

/-- Function `get_redemption_options`: the options list and the category list of its
success dictionary. -/
def get_redemption_options : List Reward × List String :=
  (redemption_options, ["gift_cards", "boosts", "services"])

/-- The return paths of `redeem_reward`: reward not found, reward
unavailable, a propagated `spend_points` failure dictionary, or success. -/
inductive RedeemRes where
  | rewardNotFound (rewardId : String)
  | rewardUnavailable (rewardName : String)
  | spendFailed (r : SpendRes)
  | ok (rewardName : String) (pointsSpent newBalance : Int)
deriving DecidableEq

/-- Function `redeem_reward` over an explicit catalog (the source inlines
`get_redemption_options()`): find the first catalog entry with the requested
id, reject unavailable rewards, delegate the debit to `spend_points`, then
append one redemption document with status `pending_fulfillment`. -/
def redeem_reward_with (catalog : List Reward) (db : DB)
    (uid rid : String) : DB × RedeemRes :=
  match catalog.find? (fun o => o.id == rid) with
  | none => (db, .rewardNotFound rid)
  | some reward =>
      if !reward.available then (db, .rewardUnavailable reward.name)
      else
        match spend_points db uid reward.cost
            ("Redeemed: " ++ reward.name) with
        | (db1, .ok _ nb) =>
            (⟨db1.users, db1.txns,
              db1.redemptions ++
                [⟨uid, rid, reward.name, reward.cost,
                  "pending_fulfillment"⟩]⟩,
             .ok reward.name reward.cost nb)
        | (db1, failRes) => (db1, .spendFailed failRes)

/-- Function `redeem_reward(user_id, reward_id)`, against the static catalog. -/
def redeem_reward (db : DB) (uid rid : String) : DB × RedeemRes :=
  redeem_reward_with get_redemption_options.1 db uid rid

/-! ## `get_user_achievements` (game_tools.py, lines 164-241) -/

/-- One entry of the `achievements` list built by `get_user_achievements`. -/
structure Achievement where
  name : String
  description : String
  unlocked : Bool
deriving DecidableEq

/-- The `achievements` list of `get_user_achievements`, a pure function of
the user's receipt count and current points: every met threshold contributes
its entry, in code order. -/
def computeAchievements (receiptCount : Nat) (currentPoints : Int) :
    List Achievement :=
  (if receiptCount ≥ 1 then
    [⟨"First Receipt", "Uploaded your first receipt", true⟩] else []) ++
  (if receiptCount ≥ 10 then
    [⟨"Receipt Collector", "Uploaded 10 receipts", true⟩] else []) ++
  (if receiptCount ≥ 50 then
    [⟨"Receipt Master", "Uploaded 50 receipts", true⟩] else []) ++
  (if currentPoints ≥ 100 then
    [⟨"Century Club", "Earned 100 points", true⟩] else []) ++
  (if currentPoints ≥ 500 then
    [⟨"Point Collector", "Earned 500 points", true⟩] else [])

/-- One entry of the `next_achievements` list. -/
structure NextAchievement where
  name : String
  description : String
  progress : Nat
  target : Nat
deriving DecidableEq

/-- The `next_achievements` list: the single next unmet receipt-count
milestone. -/
def computeNextAchievements (receiptCount : Nat) : List NextAchievement :=
  if receiptCount < 10 then
    [⟨"Receipt Collector", "Upload 10 receipts", receiptCount, 10⟩]
  else if receiptCount < 50 then
    [⟨"Receipt Master", "Upload 50 receipts", receiptCount, 50⟩]
  else []

/-! ## `calculate_points_reward` (game_tools.py, lines 31-107)

The environment configuration is modelled already parsed (`Config`); the
Python floats (`BONUS_POINTS_MULTIPLIER`, the purchase thresholds and the
parsed receipt total) are modelled as exact rationals.  The unseeded random
draws are passed in as a `Draws` record; `random.randint`'s range guarantee
appears as a hypothesis where a claim needs it. -/

/-- A Python value as far as the calculation inspects it: a string, or some
non-string object (on which `.replace` / `.lower` raise `AttributeError`). -/
inductive PyVal where
  | str (s : String)
  | nonStr
deriving DecidableEq

/-- The fields of `receipt_data` the calculation reads, each possibly absent
(`dict.get` supplies the default). -/
structure Receipt where
  total : Option PyVal
  merchant : Option PyVal
deriving DecidableEq

/-- An exact fraction (numerator over denominator, not necessarily reduced)
standing in for a Python float.  Every value constructed in this development
has a positive denominator, which the comparison below relies on. -/
structure PyFloat where
  num : Int
  den : Int
deriving DecidableEq

/-- Embed an integer. -/
def PyFloat.ofInt (n : Int) : PyFloat := ⟨n, 1⟩

/-- Exact addition (no normalisation). -/
def PyFloat.add (a b : PyFloat) : PyFloat :=
  ⟨a.num * b.den + b.num * a.den, a.den * b.den⟩

/-- Exact multiplication (no normalisation). -/
def PyFloat.mul (a b : PyFloat) : PyFloat :=
  ⟨a.num * b.num, a.den * b.den⟩

/-- Negation. -/
def PyFloat.neg (a : PyFloat) : PyFloat := ⟨-a.num, a.den⟩

/-- Comparison `a > b` by cross-multiplication (correct for positive denominators). -/
def PyFloat.isGT (a b : PyFloat) : Bool := b.num * a.den < a.num * b.den

/-- Python `int()` applied to a float modelled as an exact fraction:
truncation toward zero. -/
def pyTrunc (q : PyFloat) : Int := q.num.tdiv q.den

/-- The parsed environment configuration of `calculate_points_reward`.
Defaults: `POINTS_PER_RECEIPT=10`, `BONUS_POINTS_MULTIPLIER=1.5`,
`LARGE_PURCHASE_THRESHOLD=100`, `MEDIUM_PURCHASE_THRESHOLD=50`,
`LARGE_PURCHASE_BONUS=10`, `MEDIUM_PURCHASE_BONUS=5`,
`GROCERY_BONUS_POINTS=3`, `STREAK_BONUS_ENABLED=true`, `MAX_STREAK_BONUS=8`,
`FALLBACK_POINTS=5`. -/
structure Config where
  pointsPerReceipt : Int
  bonusMultiplier : PyFloat
  largePurchaseThreshold : PyFloat
  mediumPurchaseThreshold : PyFloat
  largePurchaseBonus : Int
  mediumPurchaseBonus : Int
  groceryBonus : Int
  streakEnabled : Bool
  maxStreakBonus : Int
  fallbackPoints : Int
deriving DecidableEq

/-- The default environment configuration. -/
def defaultConfig : Config :=
  ⟨10, ⟨3, 2⟩, ⟨100, 1⟩, ⟨50, 1⟩, 10, 5, 3, true, 8, 5⟩

/-- The outcomes of the three random draws of one call:
`random.randint(max(1, B-5), B+10)`, `random.random() < 0.3`, and
`random.randint(2, MAX_STREAK_BONUS)`. -/
structure Draws where
  baseDraw : Int
  streakRoll : Bool
  streakDraw : Int
deriving DecidableEq

/-- Model of `total_str.replace("$", "").replace(",", "")`. -/
def stripMoneyChars (s : String) : String :=
  ⟨s.toList.filter (fun c => !(c == '$' || c == ','))⟩

/-- Numeric value of a digit string. -/
def digitsVal (cs : List Char) : Nat :=
  cs.foldl (fun acc c => 10 * acc + (c.toNat - 48)) 0

/-- Parse an unsigned decimal literal: `digits`, `digits.digits`,
`.digits` or `digits.`. -/
def parseUnsigned (cs : List Char) : Option PyFloat :=
  let intPart := cs.takeWhile Char.isDigit
  match cs.dropWhile Char.isDigit with
  | [] =>
      if intPart.isEmpty then none
      else some (PyFloat.ofInt (digitsVal intPart))
  | '.' :: frac =>
      if frac.all Char.isDigit && !(intPart.isEmpty && frac.isEmpty) then
        some ⟨(digitsVal intPart : Int) * (10 : Int) ^ frac.length +
                (digitsVal frac : Int),
              (10 : Int) ^ frac.length⟩
      else none
  | _ => none

/-- ASCII whitespace (the fragment of `str.strip`'s default set receipts
exercise). -/
def isSpaceChar (c : Char) : Bool :=
  c == ' ' || c == '\t' || c == '\n' || c == '\r'

/-- Strip leading and trailing whitespace from a char list. -/
def trimChars (cs : List Char) : List Char :=
  ((cs.dropWhile isSpaceChar).reverse.dropWhile isSpaceChar).reverse

/-- Python `float()` on the plain signed decimal strings receipts carry
(exponents, `inf`/`nan` and digit underscores are not exercised here);
`none` models the `ValueError`. -/
def pyFloat? (s : String) : Option PyFloat :=
  match trimChars s.toList with
  | '+' :: cs => parseUnsigned cs
  | '-' :: cs => (parseUnsigned cs).map PyFloat.neg
  | cs => parseUnsigned cs

/-- Whether `needle` is a leading run of `hay` (helper for Python's `in`). -/
def chListPre : List Char → List Char → Bool
  | [], _ => true
  | _ :: _, [] => false
  | a :: as, b :: bs => a == b && chListPre as bs

/-- Whether `needle` occurs contiguously inside `hay` (Python's `sub in s`). -/
def chListInfx (needle : List Char) : List Char → Bool
  | [] => needle.isEmpty
  | b :: rest => chListPre needle (b :: rest) || chListInfx needle rest

/-- Python `sub in s` on strings. -/
def strContainsSub (s sub : String) : Bool :=
  chListInfx sub.toList s.toList

/-- ASCII lower-casing of one character (the fragment of Python `.lower()`
the grocery keywords exercise). -/
def lowerChar (c : Char) : Char :=
  if 'A' ≤ c ∧ c ≤ 'Z' then Char.ofNat (c.toNat + 32) else c

/-- ASCII `.lower()` on a string. -/
def lowerStr (s : String) : String := ⟨s.toList.map lowerChar⟩

/-- The grocery keyword list of the merchant bonus. -/
def groceryKeywords : List String := ["grocery", "market", "food"]

/-- Model of `any(grocery in merchant for grocery in ["grocery", "market", "food"])`. -/
def hasGroceryKeyword (merchant : String) : Bool :=
  groceryKeywords.any (fun g => strContainsSub merchant g)

/-- The Python exceptions that can escape the inner `except ValueError` and
reach the outer handler: an `AttributeError` from `.replace`/`.lower` on a
non-string, or a `ValueError` from `random.randint` on an empty range. -/
inductive PyErr where
  | attributeError
  | valueErrorRandint
deriving DecidableEq

/-- The inner `try` of `calculate_points_reward` (lines 53-77): parse the
cleaned total, add the purchase-size bonus, then the grocery bonus.  A
`ValueError` from `float()` is caught by the inner `except ValueError` with
the bonus still at its initial `0` — note this also skips the grocery bonus,
whose check sits after the `float` call in the same block.  An
`AttributeError` escapes to the outer handler.  Returns the accrued
`(bonus_points, bonus_reasons)`. -/
def purchaseBonus (cfg : Config) (receipt : Receipt) :
    Except PyErr (Int × List String) :=
  match receipt.total.getD (.str "0") with
  | .nonStr => .error .attributeError
  | .str s =>
      match pyFloat? (stripMoneyChars s) with
      | none => .ok (0, [])
      | some totalAmount =>
          let sizeStep : Int × List String :=
            if totalAmount.isGT cfg.largePurchaseThreshold then
              (cfg.largePurchaseBonus,
               ["Large purchase bonus (+" ++
                 toString cfg.largePurchaseBonus ++ ")"])
            else if totalAmount.isGT cfg.mediumPurchaseThreshold then
              (cfg.mediumPurchaseBonus,
               ["Medium purchase bonus (+" ++
                 toString cfg.mediumPurchaseBonus ++ ")"])
            else (0, [])
          match receipt.merchant.getD (.str "") with
          | .nonStr => .error .attributeError
          | .str m =>
              if hasGroceryKeyword (lowerStr m) then
                .ok (sizeStep.1 + cfg.groceryBonus,
                     sizeStep.2 ++
                       ["Grocery shopping bonus (+" ++
                         toString cfg.groceryBonus ++ ")"])
              else .ok sizeStep

/-- The success dictionary of `calculate_points_reward`,
`calculation_details` included. -/
structure CalcOk where
  basePoints : Int
  bonusPoints : Int
  totalPoints : Int
  bonusReasons : List String
  receiptTotalEcho : PyVal
  merchantEcho : PyVal
  multiplierApplied : PyFloat
deriving DecidableEq

/-- Result of `calculate_points_reward`: the success dictionary, or the
fallback dictionary (`success: False`) carrying `FALLBACK_POINTS`. -/
inductive CalcResult where
  | ok (r : CalcOk)
  | fallback (fallbackTotal : Int)
deriving DecidableEq

/-- The `total_points` entry, present in both result dictionaries. -/
def CalcResult.totalPoints : CalcResult → Int
  | .ok r => r.totalPoints
  | .fallback t => t

/-- The streak step (lines 79-85): when the streak is enabled and the 30%
roll hits, `random.randint(2, MAX_STREAK_BONUS)` is drawn (raising
`ValueError` when `MAX_STREAK_BONUS < 2`); if bonuses already accrued the
amount added is `int(bonus_points * bonus_multiplier)`, otherwise the drawn
`streak_bonus` — while the appended reason always reports the drawn
`streak_bonus`. -/
def streakStep (cfg : Config) (d : Draws) (bonus1 : Int)
    (reasons1 : List String) : Except PyErr (Int × List String) :=
  if cfg.streakEnabled && d.streakRoll then
    if cfg.maxStreakBonus < 2 then .error .valueErrorRandint
    else
      .ok (bonus1 +
            (if bonus1 > 0 then
              pyTrunc ((PyFloat.ofInt bonus1).mul cfg.bonusMultiplier)
             else d.streakDraw),
           reasons1 ++ ["Streak bonus (+" ++ toString d.streakDraw ++ ")"])
  else .ok (bonus1, reasons1)

/-- The body of `calculate_points_reward`'s outer `try` (lines 44-100):
base draw (whose `random.randint` raises `ValueError` on an empty range),
purchase bonuses, then the streak step. -/
def calcCore (cfg : Config) (d : Draws) (receipt : Receipt) :
    Except PyErr CalcOk :=
  if max 1 (cfg.pointsPerReceipt - 5) > cfg.pointsPerReceipt + 10 then
    .error .valueErrorRandint
  else
    match purchaseBonus cfg receipt with
    | .error e => .error e
    | .ok (bonus1, reasons1) =>
        match streakStep cfg d bonus1 reasons1 with
        | .error e => .error e
        | .ok (bonus2, reasons2) =>
            .ok ⟨d.baseDraw, bonus2, d.baseDraw + bonus2, reasons2,
                 receipt.total.getD (.str "0"),
                 receipt.merchant.getD (.str "Unknown"),
                 cfg.bonusMultiplier⟩

/-- Function `calculate_points_reward`: the outer `try`/`except` absorbs any raised
exception into the fallback dictionary. -/
def calculate_points_reward (cfg : Config) (d : Draws)
    (receipt : Receipt) : CalcResult :=
  match calcCore cfg d receipt with
  | .ok r => .ok r
  | .error _ => .fallback cfg.fallbackPoints

/-! ## Ledger traces -/

/-- One ledger operation of the spec's "sequence of award and spend
operations". -/
inductive LedgerOp where
  | opAward (uid : String) (points : Int) (reason : String)
  | opSpend (uid : String) (points : Int) (reason : String)

/-- State effect of one ledger operation. -/
def applyOp (db : DB) : LedgerOp → DB
  | .opAward u p r => (award_points_to_user db u p r).1
  | .opSpend u p r => (spend_points db u p r).1

/-- Run a sequence of ledger operations left to right. -/
def runOps (db : DB) : List LedgerOp → DB
  | [] => db
  | op :: rest => runOps (applyOp db op) rest

/-! ## Basic store lemmas -/

theorem lookupPts_incPoints (us : List (String × Int)) (uid uid' : String)
    (p : Int) :
    lookupPts (incPoints us uid p) uid' =
      if uid' = uid then some ((lookupPts us uid).getD 0 + p)
      else lookupPts us uid' := by
  induction us with
  | nil =>
      by_cases h : uid' = uid
      · subst h; simp [incPoints, lookupPts]
      · have h2 : ¬ uid = uid' := fun e => h e.symm
        simp [incPoints, lookupPts, h, h2]
  | cons kv rest ih =>
      obtain ⟨k, v⟩ := kv
      by_cases hk : k = uid
      · subst hk
        by_cases h : uid' = k
        · subst h; simp [incPoints, lookupPts]
        · have h2 : ¬ k = uid' := fun e => h e.symm
          simp [incPoints, lookupPts, h, h2]
      · by_cases h : k = uid'
        · subst h
          simp [incPoints, lookupPts, hk]
        · simp [incPoints, lookupPts, hk, h, ih]

theorem sumFor_append (uid : String) (ts : List Txn) (t : Txn) :
    sumFor uid (ts ++ [t]) =
      sumFor uid ts + (if t.userId = uid then t.points else 0) := by
  induction ts with
  | nil => simp [sumFor]
  | cons s ss ih => simp [sumFor, ih]; ring

/-- The ledger invariant: every user's stored balance equals the sum of that
user's logged transaction points. -/
def Inv (db : DB) : Prop :=
  ∀ uid, balanceOf db uid = txnSum db uid

theorem inv_emptyDB : Inv emptyDB := by
  intro uid
  simp [Inv, emptyDB, balanceOf, txnSum, sumFor, lookupPts]

theorem inv_award (db : DB) (u : String) (p : Int) (r : String)
    (h : Inv db) : Inv (award_points_to_user db u p r).1 := by
  intro uid
  have hb := h uid
  simp only [balanceOf, txnSum] at hb
  simp only [award_points_to_user, balanceOf, txnSum, sumFor_append,
    lookupPts_incPoints]
  by_cases he : uid = u
  · subst he; simp [hb]
  · have hne : ¬ u = uid := fun e => he e.symm
    simp [he, hne, hb]

theorem inv_spend (db : DB) (u : String) (p : Int) (r : String)
    (h : Inv db) : Inv (spend_points db u p r).1 := by
  intro uid
  have hbal := h uid
  simp only [balanceOf, txnSum] at hbal
  simp only [spend_points]
  cases hl : lookupPts db.users u with
  | none => simpa [balanceOf, txnSum] using hbal
  | some bal =>
      by_cases hcmp : bal < p
      · simpa [balanceOf, txnSum, hcmp] using hbal
      · simp only [if_neg hcmp]
        simp only [balanceOf, txnSum, sumFor_append, lookupPts_incPoints]
        by_cases he : uid = u
        · subst he
          rw [hl] at hbal
          simp only [Option.getD_some] at hbal
          simp [hl, hbal]
        · have hne : ¬ u = uid := fun e => he e.symm
          simp [he, hne, hbal]

theorem inv_applyOp (db : DB) (op : LedgerOp) (h : Inv db) :
    Inv (applyOp db op) := by
  cases op with
  | opAward u p r => exact inv_award db u p r h
  | opSpend u p r => exact inv_spend db u p r h

theorem inv_runOps (ops : List LedgerOp) (db : DB) (h : Inv db) :
    Inv (runOps db ops) := by
  induction ops generalizing db with
  | nil => exact h
  | cons op rest ih => exact ih _ (inv_applyOp db op h)

/-! ## Claim theorems -/

/-- C1: for every user and every sequence of award and spend operations
starting from a fresh state, the stored `points` balance equals the sum of
the point values of all transactions logged for that user. -/
theorem balance_eq_txn_sum (ops : List LedgerOp) (uid : String) :
    balanceOf (runOps emptyDB ops) uid = txnSum (runOps emptyDB ops) uid :=
  inv_runOps ops emptyDB inv_emptyDB uid

/-- C2 counterexample: spending 100 points as a non-existent user (current
balance 0) does not produce the insufficient-balance failure the claim
requires; `spend_points` returns the distinct `"User not found"` error. -/
theorem spend_missing_user_not_insufficient :
    (spend_points emptyDB "u1" 100 "r").2 = SpendRes.userNotFound ∧
    (spend_points emptyDB "u1" 100 "r").2 ≠ SpendRes.insufficient 0 100 := by
  constructor
  · rfl
  · intro h
    simp [spend_points, emptyDB, lookupPts] at h

/-- C2 (amended): for an existing user with balance `b`, `spend_points`
fails with the insufficient-balance error (reporting the current balance `b`
and the required amount `p`) and performs no state change iff `b < p`; for a
non-existent user it fails with the `"User not found"` error (not an
insufficient-balance failure) and performs no state change, whatever `p`. -/
theorem spend_insufficient_iff (db : DB) (uid : String) (p : Int)
    (reason : String) :
    (∀ b, lookupPts db.users uid = some b →
        (spend_points db uid p reason = (db, SpendRes.insufficient b p) ↔
          b < p)) ∧
    (lookupPts db.users uid = none →
        spend_points db uid p reason = (db, SpendRes.userNotFound)) := by
  constructor
  · intro b hb
    by_cases hlt : b < p <;> simp [spend_points, hb, hlt]
  · intro hn
    simp [spend_points, hn]

/-- C3: awarding a positive number of points increments the user's balance
by that amount, reports the new balance, and appends exactly one `earned`
transaction; a non-existent user's document is created holding the awarded
amount, and the call succeeds. -/
theorem award_increments_and_logs (db : DB) (uid : String) (p : Int)
    (reason : String) (hp : 0 < p) :
    (award_points_to_user db uid p reason).2 =
      ⟨p, balanceOf db uid + p⟩ ∧
    lookupPts (award_points_to_user db uid p reason).1.users uid =
      some (balanceOf db uid + p) ∧
    (award_points_to_user db uid p reason).1.txns =
      db.txns ++ [⟨uid, p, reason, "earned"⟩] ∧
    (award_points_to_user db uid p reason).1.redemptions = db.redemptions ∧
    (lookupPts db.users uid = none →
      lookupPts (award_points_to_user db uid p reason).1.users uid =
        some p) := by
  refine ⟨?_, ?_, rfl, rfl, ?_⟩
  · simp [award_points_to_user, lookupPts_incPoints, balanceOf]
  · simp [award_points_to_user, lookupPts_incPoints, balanceOf]
  · intro hn
    simp [award_points_to_user, lookupPts_incPoints, balanceOf, hn]

/-- C3 witness: awarding 5 points to a fresh user creates the account with
balance 5 and logs one `earned` transaction. -/
theorem award_increments_and_logs_witness :
    (award_points_to_user emptyDB "alice" 5 "receipt").2 = ⟨5, 5⟩ ∧
    lookupPts (award_points_to_user emptyDB "alice" 5 "receipt").1.users
      "alice" = some 5 ∧
    (award_points_to_user emptyDB "alice" 5 "receipt").1.txns =
      [⟨"alice", 5, "receipt", "earned"⟩] := by
  have h := award_increments_and_logs emptyDB "alice" 5 "receipt"
    (by decide)
  refine ⟨?_, ?_, ?_⟩
  · simpa [emptyDB, balanceOf, lookupPts] using h.1
  · rw [h.2.1]; rfl
  · rw [h.2.2.1]; rfl

/-- C2 witness: a user holding 50 points cannot spend 100 (the
insufficient-balance failure leaves the store unchanged), and spending as an
unknown user yields the `"User not found"` error. -/
theorem spend_insufficient_iff_witness :
    spend_points ⟨[("bob", 50)], [], []⟩ "bob" 100 "r" =
      (⟨[("bob", 50)], [], []⟩, SpendRes.insufficient 50 100) ∧
    spend_points ⟨[("bob", 50)], [], []⟩ "eve" 100 "r" =
      (⟨[("bob", 50)], [], []⟩, SpendRes.userNotFound) := by
  constructor
  · exact ((spend_insufficient_iff ⟨[("bob", 50)], [], []⟩ "bob" 100
      "r").1 50 (by decide)).mpr (by decide)
  · exact (spend_insufficient_iff ⟨[("bob", 50)], [], []⟩ "eve" 100
      "r").2 (by decide)

/-- C9: `spend_points` never checks that `points` is positive: for an
existing user with balance `b` and any `p ≤ b` (zero and negative included),
the call succeeds, the stored balance becomes `b - p`, and one `spent`
transaction holding `-p` is appended. -/
theorem spend_accepts_nonpositive (db : DB) (uid : String) (b p : Int)
    (reason : String) (hb : lookupPts db.users uid = some b) (hp : p ≤ b) :
    spend_points db uid p reason =
      (⟨incPoints db.users uid (-p),
        db.txns ++ [⟨uid, -p, reason, "spent"⟩], db.redemptions⟩,
       SpendRes.ok p (b - p)) ∧
    lookupPts (incPoints db.users uid (-p)) uid = some (b - p) := by
  have hlt : ¬ b < p := not_lt.mpr hp
  constructor
  · simp [spend_points, hb, hlt]
  · rw [lookupPts_incPoints]
    simp [hb, sub_eq_add_neg]

/-- C9 witness: an existing user with balance 5 "spends" −3 points; the call
succeeds and the stored balance rises to 8, with a `spent` transaction of
value 3 logged. -/
theorem spend_accepts_nonpositive_witness :
    spend_points ⟨[("bob", 5)], [], []⟩ "bob" (-3) "odd" =
      (⟨[("bob", 8)], [⟨"bob", 3, "odd", "spent"⟩], []⟩,
       SpendRes.ok (-3) 8) := by
  have h := (spend_accepts_nonpositive ⟨[("bob", 5)], [], []⟩ "bob" 5 (-3)
    "odd" (by decide) (by decide)).1
  simpa [incPoints] using h

/-- C7: redemption against a catalog — a missing reward id fails with the
not-found error and no state change; an unavailable reward fails with the
unavailable error and no state change; a valid, available reward redeemed by
a user with sufficient balance decreases the balance by exactly the reward's
cost and appends exactly one redemption record with status
`pending_fulfillment`. -/
theorem redeem_reward_spec (catalog : List Reward) (db : DB)
    (uid rid : String) :
    (catalog.find? (fun o => o.id == rid) = none →
      redeem_reward_with catalog db uid rid =
        (db, RedeemRes.rewardNotFound rid)) ∧
    (∀ reward, catalog.find? (fun o => o.id == rid) = some reward →
      reward.available = false →
      redeem_reward_with catalog db uid rid =
        (db, RedeemRes.rewardUnavailable reward.name)) ∧
    (∀ reward b, catalog.find? (fun o => o.id == rid) = some reward →
      reward.available = true →
      lookupPts db.users uid = some b →
      reward.cost ≤ b →
      (redeem_reward_with catalog db uid rid).2 =
        RedeemRes.ok reward.name reward.cost (b - reward.cost) ∧
      balanceOf (redeem_reward_with catalog db uid rid).1 uid =
        b - reward.cost ∧
      (redeem_reward_with catalog db uid rid).1.redemptions =
        db.redemptions ++
          [⟨uid, rid, reward.name, reward.cost, "pending_fulfillment"⟩]) := by
  refine ⟨?_, ?_, ?_⟩
  · intro hf
    simp [redeem_reward_with, hf]
  · intro reward hf hav
    simp [redeem_reward_with, hf, hav]
  · intro reward b hf hav hb hcost
    have hlt : ¬ b < reward.cost := not_lt.mpr hcost
    have hsp : spend_points db uid reward.cost
        ("Redeemed: " ++ reward.name) =
        (⟨incPoints db.users uid (-reward.cost),
          db.txns ++ [⟨uid, -reward.cost, "Redeemed: " ++ reward.name,
            "spent"⟩], db.redemptions⟩,
         SpendRes.ok reward.cost (b - reward.cost)) := by
      simp [spend_points, hb, hlt]
    refine ⟨?_, ?_, ?_⟩
    · simp [redeem_reward_with, hf, hav, hsp]
    · simp [redeem_reward_with, hf, hav, hsp, balanceOf,
        lookupPts_incPoints, hb, sub_eq_add_neg]
    · simp [redeem_reward_with, hf, hav, hsp]

/-- C7 witness: a user holding 1500 points redeems the $10 gift card (cost
1000): the result reports a new balance of 500 and one pending-fulfillment
redemption record; an unknown reward id and an unavailable reward each fail
without touching the store. -/
theorem redeem_reward_spec_witness :
    (redeem_reward ⟨[("carol", 1500)], [], []⟩ "carol" "gift_card_10").2 =
      RedeemRes.ok "$10 Gift Card" 1000 500 ∧
    (redeem_reward ⟨[("carol", 1500)], [], []⟩ "carol"
        "gift_card_10").1.redemptions =
      [⟨"carol", "gift_card_10", "$10 Gift Card", 1000,
        "pending_fulfillment"⟩] ∧
    redeem_reward ⟨[("carol", 1500)], [], []⟩ "carol" "nope" =
      (⟨[("carol", 1500)], [], []⟩, RedeemRes.rewardNotFound "nope") ∧
    redeem_reward_with [⟨"x", "X", "d", 10, "c", false⟩] emptyDB "carol"
        "x" =
      (emptyDB, RedeemRes.rewardUnavailable "X") := by
  have h1 := (redeem_reward_spec redemption_options
    ⟨[("carol", 1500)], [], []⟩ "carol" "gift_card_10").2.2
    ⟨"gift_card_10", "$10 Gift Card",
     "Redeem for a $10 gift card to popular retailers", 1000, "gift_cards",
     true⟩ 1500 rfl rfl (by decide) (by decide)
  have h2 := (redeem_reward_spec redemption_options
    ⟨[("carol", 1500)], [], []⟩ "carol" "nope").1 rfl
  have h3 := (redeem_reward_spec [⟨"x", "X", "d", 10, "c", false⟩] emptyDB
    "carol" "x").2.1 ⟨"x", "X", "d", 10, "c", false⟩ rfl rfl
  refine ⟨?_, ?_, h2, h3⟩
  · exact h1.1
  · exact h1.2.2

/-! ## Achievement lemmas -/

theorem mem_ite_single {α : Type} (c : Prop) [Decidable c] (x a : α) :
    (a ∈ if c then [x] else []) ↔ c ∧ a = x := by
  split_ifs with h <;> simp [h]

theorem mem_computeAchievements (rc : Nat) (p : Int) (a : Achievement) :
    a ∈ computeAchievements rc p ↔
      (1 ≤ rc ∧ a = ⟨"First Receipt", "Uploaded your first receipt", true⟩) ∨
      (10 ≤ rc ∧ a = ⟨"Receipt Collector", "Uploaded 10 receipts", true⟩) ∨
      (50 ≤ rc ∧ a = ⟨"Receipt Master", "Uploaded 50 receipts", true⟩) ∨
      ((100 : Int) ≤ p ∧ a = ⟨"Century Club", "Earned 100 points", true⟩) ∨
      ((500 : Int) ≤ p ∧
        a = ⟨"Point Collector", "Earned 500 points", true⟩) := by
  simp [computeAchievements, mem_ite_single, ge_iff_le]

/-- C8: the unlocked achievement set is monotonic — every achievement
unlocked at a smaller receipt count and point balance is still unlocked at a
larger one — and each threshold entry (1/10/50 receipts, 100/500 points) is
present exactly when its threshold is met. -/
theorem achievements_monotone (rc rc' : Nat) (p p' : Int)
    (hrc : rc ≤ rc') (hp : p ≤ p') :
    (∀ a ∈ computeAchievements rc p, a ∈ computeAchievements rc' p') ∧
    ((⟨"First Receipt", "Uploaded your first receipt", true⟩ :
        Achievement) ∈ computeAchievements rc p ↔ 1 ≤ rc) ∧
    ((⟨"Receipt Collector", "Uploaded 10 receipts", true⟩ :
        Achievement) ∈ computeAchievements rc p ↔ 10 ≤ rc) ∧
    ((⟨"Receipt Master", "Uploaded 50 receipts", true⟩ :
        Achievement) ∈ computeAchievements rc p ↔ 50 ≤ rc) ∧
    ((⟨"Century Club", "Earned 100 points", true⟩ :
        Achievement) ∈ computeAchievements rc p ↔ (100 : Int) ≤ p) ∧
    ((⟨"Point Collector", "Earned 500 points", true⟩ :
        Achievement) ∈ computeAchievements rc p ↔ (500 : Int) ≤ p) := by
  refine ⟨?_, ?_, ?_, ?_, ?_, ?_⟩
  · intro a ha
    rw [mem_computeAchievements] at ha ⊢
    rcases ha with ⟨h, rfl⟩ | ⟨h, rfl⟩ | ⟨h, rfl⟩ | ⟨h, rfl⟩ | ⟨h, rfl⟩
    · exact Or.inl ⟨le_trans h hrc, rfl⟩
    · exact Or.inr (Or.inl ⟨le_trans h hrc, rfl⟩)
    · exact Or.inr (Or.inr (Or.inl ⟨le_trans h hrc, rfl⟩))
    · exact Or.inr (Or.inr (Or.inr (Or.inl ⟨le_trans h hp, rfl⟩)))
    · exact Or.inr (Or.inr (Or.inr (Or.inr ⟨le_trans h hp, rfl⟩)))
  all_goals rw [mem_computeAchievements]; simp

/-- C8 witness: every achievement of a user with 2 receipts and 0 points is
kept at 12 receipts and 150 points; at 12 receipts both receipt milestones
up to 10 are unlocked and "Receipt Master" is not. -/
theorem achievements_monotone_witness :
    (∀ a ∈ computeAchievements 2 0, a ∈ computeAchievements 12 150) ∧
    ((⟨"Receipt Collector", "Uploaded 10 receipts", true⟩ :
        Achievement) ∈ computeAchievements 12 150) ∧
    ¬ ((⟨"Receipt Master", "Uploaded 50 receipts", true⟩ :
        Achievement) ∈ computeAchievements 12 150) := by
  have h := achievements_monotone 2 12 0 150 (by decide) (by decide)
  have h' := achievements_monotone 12 12 150 150 le_rfl le_rfl
  exact ⟨h.1, (h'.2.2.1).mpr (by decide), fun hm =>
    absurd ((h'.2.2.2.1).mp hm) (by decide)⟩

/-! ## Points-engine lemmas -/

theorem calcCore_ok_shape (cfg : Config) (d : Draws) (receipt : Receipt)
    (r : CalcOk) (h : calcCore cfg d receipt = .ok r) :
    r.basePoints = d.baseDraw ∧
    r.totalPoints = r.basePoints + r.bonusPoints := by
  unfold calcCore at h
  split at h
  · cases h
  · split at h
    · cases h
    · split at h
      · cases h
      · cases h
        exact ⟨rfl, rfl⟩

theorem calculate_ok_iff (cfg : Config) (d : Draws) (receipt : Receipt)
    (r : CalcOk) :
    calculate_points_reward cfg d receipt = .ok r ↔
      calcCore cfg d receipt = .ok r := by
  unfold calculate_points_reward
  cases hc : calcCore cfg d receipt <;> simp

/-- C5: for every configuration, receipt and draw outcome, a successful
result satisfies `total_points = base_points + bonus_points`, and — given
`random.randint`'s guarantee for the base draw — `base_points` lies in
`[max(1, B-5), B+10]` where `B` is `POINTS_PER_RECEIPT`. -/
theorem total_points_decomposition (cfg : Config) (d : Draws)
    (receipt : Receipt) (r : CalcOk)
    (hlo : max 1 (cfg.pointsPerReceipt - 5) ≤ d.baseDraw)
    (hhi : d.baseDraw ≤ cfg.pointsPerReceipt + 10)
    (hok : calculate_points_reward cfg d receipt = .ok r) :
    r.totalPoints = r.basePoints + r.bonusPoints ∧
    max 1 (cfg.pointsPerReceipt - 5) ≤ r.basePoints ∧
    r.basePoints ≤ cfg.pointsPerReceipt + 10 := by
  obtain ⟨hbase, htotal⟩ :=
    calcCore_ok_shape cfg d receipt r ((calculate_ok_iff _ _ _ _).mp hok)
  exact ⟨htotal, by rw [hbase]; exact hlo, by rw [hbase]; exact hhi⟩

/-- C5 witness: at the default configuration, base draw 12 on a $12 receipt
yields the successful result with `total = base + bonus` and the base inside
`[5, 20]`. -/
theorem total_points_decomposition_witness :
    (12 : Int) = 12 + 0 ∧ (5 : Int) ≤ 12 ∧ (12 : Int) ≤ 20 := by
  have h := total_points_decomposition defaultConfig ⟨12, false, 2⟩
    ⟨some (.str "12.00"), some (.str "Shop")⟩
    ⟨12, 0, 12, [], .str "12.00", .str "Shop", ⟨3, 2⟩⟩
    (by decide) (by decide) (by decide)
  exact ⟨h.1, h.2.1, h.2.2⟩

/-- C6: any exception raised inside the calculation is absorbed by the outer
handler: the call does not propagate it and returns the fallback dictionary
whose `total_points` is the configured `FALLBACK_POINTS`. -/
theorem calculation_error_falls_back (cfg : Config) (d : Draws)
    (receipt : Receipt) (e : PyErr)
    (h : calcCore cfg d receipt = .error e) :
    calculate_points_reward cfg d receipt = .fallback cfg.fallbackPoints ∧
    (calculate_points_reward cfg d receipt).totalPoints =
      cfg.fallbackPoints := by
  unfold calculate_points_reward
  rw [h]
  exact ⟨rfl, rfl⟩

/-- C6 witness: a non-string `total` raises `AttributeError` inside the
calculation; the call returns the fallback dictionary with
`total_points = 5` (the default `FALLBACK_POINTS`). -/
theorem calculation_error_falls_back_witness :
    calculate_points_reward defaultConfig ⟨10, false, 2⟩
        ⟨some PyVal.nonStr, some (.str "")⟩ =
      CalcResult.fallback 5 ∧
    (calculate_points_reward defaultConfig ⟨10, false, 2⟩
        ⟨some PyVal.nonStr, some (.str "")⟩).totalPoints = 5 :=
  calculation_error_falls_back defaultConfig ⟨10, false, 2⟩
    ⟨some PyVal.nonStr, some (.str "")⟩ PyErr.attributeError rfl

/-- C4 counterexample: for the receipt `{total: "abc", merchant: "Grocery
Mart"}` the total does not parse and the lower-cased merchant contains
`"grocery"`, yet the grocery bonus is NOT applied: the result has
`bonus_points = 0` and an empty reason list (the claimed value would be the
grocery bonus 3), because the merchant check sits after the `float` call in
the same `try` block skipped by the `ValueError`. -/
theorem unparsable_total_skips_grocery_bonus :
    pyFloat? (stripMoneyChars "abc") = none ∧
    hasGroceryKeyword (lowerStr "Grocery Mart") = true ∧
    calculate_points_reward defaultConfig ⟨10, false, 2⟩
        ⟨some (.str "abc"), some (.str "Grocery Mart")⟩ =
      .ok ⟨10, 0, 10, [], .str "abc", .str "Grocery Mart", ⟨3, 2⟩⟩ ∧
    defaultConfig.groceryBonus = 3 ∧ (0 : Int) ≠ 3 := by
  refine ⟨rfl, rfl, rfl, rfl, ?_⟩
  decide

/-- C4 (amended): when `total` is a string that does not parse as a number,
no error is raised, but the grocery bonus is skipped together with the
threshold bonuses (the merchant check lives after the `float` call in the
same guarded block): the purchase-bonus step yields `(0, [])`, so a
successful result's bonus comes from the streak step alone. -/
theorem unparsable_total_skips_purchase_and_grocery (cfg : Config)
    (d : Draws) (receipt : Receipt) (s : String)
    (htot : receipt.total = some (.str s))
    (hparse : pyFloat? (stripMoneyChars s) = none)
    (hrange : ¬ max 1 (cfg.pointsPerReceipt - 5) > cfg.pointsPerReceipt + 10)
    (hstreak : (cfg.streakEnabled && d.streakRoll) = true →
      ¬ cfg.maxStreakBonus < 2) :
    purchaseBonus cfg receipt = .ok (0, []) ∧
    calculate_points_reward cfg d receipt =
      .ok ⟨d.baseDraw,
           (if cfg.streakEnabled && d.streakRoll then d.streakDraw else 0),
           d.baseDraw +
             (if cfg.streakEnabled && d.streakRoll then d.streakDraw
              else 0),
           (if cfg.streakEnabled && d.streakRoll then
             ["Streak bonus (+" ++ toString d.streakDraw ++ ")"]
            else []),
           .str s, receipt.merchant.getD (.str "Unknown"),
           cfg.bonusMultiplier⟩ := by
  have hpb : purchaseBonus cfg receipt = .ok (0, []) := by
    unfold purchaseBonus
    rw [htot]
    simp [hparse]
  refine ⟨hpb, ?_⟩
  unfold calculate_points_reward calcCore
  rw [if_neg hrange, hpb]
  by_cases hs : (cfg.streakEnabled && d.streakRoll) = true
  · have hmax := hstreak hs
    simp [streakStep, hs, hmax, htot]
  · have hs' : (cfg.streakEnabled && d.streakRoll) = false := by
      revert hs
      cases cfg.streakEnabled && d.streakRoll <;> simp
    simp [streakStep, hs', htot]

/-- C4 amended-claim witness: total `"x,y"` does not parse; with the streak
triggered (draw 4) the result's bonus is the streak bonus alone — no
threshold bonus and no grocery bonus, despite the merchant `"market"`. -/
theorem unparsable_total_skips_purchase_and_grocery_witness :
    purchaseBonus defaultConfig
      ⟨some (.str "x,y"), some (.str "market")⟩ = .ok (0, []) ∧
    calculate_points_reward defaultConfig ⟨10, true, 4⟩
        ⟨some (.str "x,y"), some (.str "market")⟩ =
      .ok ⟨10, 4, 14, ["Streak bonus (+4)"], .str "x,y", .str "market",
           ⟨3, 2⟩⟩ := by
  have h := unparsable_total_skips_purchase_and_grocery defaultConfig
    ⟨10, true, 4⟩ ⟨some (.str "x,y"), some (.str "market")⟩ "x,y" rfl
    rfl (by decide) (fun _ => by decide)
  refine ⟨h.1, ?_⟩
  rw [h.2]
  rfl

/-- C10: whenever the streak triggers while `bonus_points` is already
positive, the amount actually added is
`int(bonus_points * bonus_multiplier)`, while the appended reason string
reports the independently drawn `streak_bonus`; at the default multiplier a
pre-streak bonus of 10 adds 15 points, which differs from a legal reported
draw of 2. -/
theorem streak_reason_reports_different_amount (cfg : Config) (d : Draws)
    (receipt : Receipt) (b1 : Int) (rs1 : List String)
    (hpb : purchaseBonus cfg receipt = .ok (b1, rs1))
    (hb1 : 0 < b1)
    (hs : (cfg.streakEnabled && d.streakRoll) = true)
    (hmax : ¬ cfg.maxStreakBonus < 2)
    (hrange : ¬ max 1 (cfg.pointsPerReceipt - 5) >
      cfg.pointsPerReceipt + 10) :
    calculate_points_reward cfg d receipt =
      .ok ⟨d.baseDraw,
           b1 + pyTrunc ((PyFloat.ofInt b1).mul cfg.bonusMultiplier),
           d.baseDraw +
             (b1 + pyTrunc ((PyFloat.ofInt b1).mul cfg.bonusMultiplier)),
           rs1 ++ ["Streak bonus (+" ++ toString d.streakDraw ++ ")"],
           receipt.total.getD (.str "0"),
           receipt.merchant.getD (.str "Unknown"),
           cfg.bonusMultiplier⟩ ∧
    pyTrunc ((PyFloat.ofInt 10).mul defaultConfig.bonusMultiplier) = 15 ∧
    (15 : Int) ≠ 2 := by
  refine ⟨?_, by decide, by decide⟩
  unfold calculate_points_reward calcCore
  rw [if_neg hrange, hpb]
  simp [streakStep, hs, hmax, hb1]

/-- C10 witness: a $120 receipt from a non-grocery merchant accrues the
large-purchase bonus 10; with the streak triggered and a drawn
`streak_bonus` of 2, the result adds `int(10 * 1.5) = 15` bonus points while
the reason string reports `+2`. -/
theorem streak_reason_reports_different_amount_witness :
    calculate_points_reward defaultConfig ⟨12, true, 2⟩
        ⟨some (.str "$120.00"), some (.str "Shop")⟩ =
      .ok ⟨12, 25, 37,
           ["Large purchase bonus (+10)", "Streak bonus (+2)"],
           .str "$120.00", .str "Shop", ⟨3, 2⟩⟩ := by
  have h := streak_reason_reports_different_amount defaultConfig
    ⟨12, true, 2⟩ ⟨some (.str "$120.00"), some (.str "Shop")⟩ 10
    ["Large purchase bonus (+10)"] rfl (by decide) (by decide)
    (by decide) (by decide)
  rw [h.1]
  decide

end Stash
